import Mathlib

/-!
Verification development for the `faas-watchdog-wasmer-gpu` watchdog.

Shallow embedding of the Rust sources:
* `src/server/watchdog.rs`     — body-chunk channel sizing, `/scale-updater` arm
* `src/utils.rs`               — `parse_command`
* `src/health.rs`              — lock file and health flag
* `src/runner/wasm_runner/thread_pool.rs` — thread pool counters and sentinel
* `src/runner/wasm_runner.rs`  — `get_scale` / `set_scale` / `new`
* `src/runner/wasm_runner/stdio.rs`       — `Stdin` adapter
* `src/contrib/faas/provider_types.rs`    — `ScaleServiceRequest::from_json`
* `src/config/watchdog_config.rs`         — `WatchdogConfig::new` / `parse_var`

Machine integers are modelled as `Nat`; `u64` wrap-around is written with an
explicit `% 2 ^ 64` where the source relies on it.
-/

/-! ### `get_body_chunk_size` (src/server/watchdog.rs lines 200-209) -/

/-- Model of `get_body_chunk_size`: `1 << 10 = 1024`, `1 << 15 = 32768`,
`b >> 10` is `Nat.shiftRight b 10`. -/
def get_body_chunk_size (b : Nat) : Nat :=
  if b ≤ 1 <<< 10 then 1
  else if b ≤ 1 <<< 15 then b >>> 10
  else 64

/-! ### `parse_command` (src/utils.rs lines 18-29) -/

/-- Model of Rust `str::split(" ")`: splits at every single space, keeping
empty pieces; the empty string yields one empty piece. -/
def splitSpace : List Char → List (List Char)
  | [] => [[]]
  | c :: t =>
    if c = ' ' then [] :: splitSpace t
    else
      match splitSpace t with
      | [] => [[c]]
      | h :: r => (c :: h) :: r

/-- Model of `parse_command`: split `func` on spaces; error iff the resulting
vector is empty (which, as proved below, never happens). -/
def parse_command (func : List Char) : Except String (List (List Char)) :=
  let v := splitSpace func
  if v.isEmpty then Except.error "function name cannot be empty!"
  else Except.ok v

/-! ### Health and lock file (src/health.rs) -/

/-- Abstract machine state for `health.rs`: the `ACCEPTING_CONNECTIONS`
atomic, whether the temp dir exists, and the lock file as
`some (length, permissionMode)` when present. -/
structure HealthState where
  acceptingConnections : Bool
  tempDirExists : Bool
  lockFile : Option (Nat × Nat)
deriving DecidableEq, Repr

/-- Model of `create_lock_file` (success path): creates the temp dir when
missing and the lock file with length 0.  The Rust source calls
`Permissions::from_mode(0660)`; in Rust `0660` is a DECIMAL literal (octal
would be `0o660`), so the mode recorded here is the decimal number 660. -/
def create_lock_file (s : HealthState) : HealthState :=
  { s with tempDirExists := true, lockFile := some (0, 660) }

/-- Model of `mark_healthy` (success path): store `true` into the flag, then
create the lock file unless `suppress_lock`. -/
def mark_healthy (suppress_lock : Bool) (s : HealthState) : HealthState :=
  let s1 := { s with acceptingConnections := true }
  if suppress_lock then s1 else create_lock_file s1

/-- Model of `lock_file_present`. -/
def lock_file_present (s : HealthState) : Bool :=
  s.lockFile.isSome

/-- Model of `check_healthy`. -/
def check_healthy (s : HealthState) : Bool :=
  s.acceptingConnections || lock_file_present s

/-! ### Thread pool (src/runner/wasm_runner/thread_pool.rs)

The pool counters are atomics; we model the state they reach between
synchronisation points and the transitions the worker loop, `execute` and
`Sentinel::drop` perform on them. -/

/-- The counters of `ThreadPoolEntry`: the target `_thread_num`, the running
`_active_thread_num`, `_panicked_thread_num`, and the queue length of
`_job_queue`. -/
structure PoolState where
  threadNum : Nat
  activeThreadNum : Nat
  panickedThreadNum : Nat
  queuedJobNum : Nat
deriving DecidableEq, Repr

/-- Model of `ThreadPool::new(thread_num, _, _)` counters. -/
def poolNew (thread_num : Nat) : PoolState :=
  { threadNum := thread_num
    activeThreadNum := 0
    panickedThreadNum := 0
    queuedJobNum := 0 }

/-- `ThreadPool::has_work`. -/
def has_work (s : PoolState) : Bool :=
  decide (s.activeThreadNum > 0) || decide (s.queuedJobNum > 0)

/-- `ThreadPool::set_thread_num` effect on the counters: swap the target
(spawning threads does not change any counter). -/
def set_thread_num (size : Nat) (s : PoolState) : PoolState :=
  { s with threadNum := size }

/-- Model of `Sentinel::drop` when `_active` is still true.  Returns the new
state, whether the joiners were notified, and whether a replacement thread
was spawned (the source always calls `spawn_one` here).  `panicking` is
`std::thread::panicking()` at drop time. -/
def sentinelDrop (panicking : Bool) (s : PoolState) : PoolState × Bool × Bool :=
  let previous := s.activeThreadNum
  let s1 := { s with activeThreadNum := s.activeThreadNum - 1 }
  let notified := decide (previous = 1) && decide (s1.queuedJobNum = 0)
  let s2 :=
    if panicking then { s1 with panickedThreadNum := s1.panickedThreadNum + 1 }
    else s1
  (s2, notified, true)

/-- The counter transitions of the pool, between synchronisation points:
`execute` pushes a job; `getJob` pops one and bumps `active` (the worker
loop); `finishJob` is the `fetch_sub` after a job returns normally;
`sentinel b` is the `Sentinel::drop` run on worker-loop exit with
`std::thread::panicking() = b`. -/
inductive PoolEvent where
  | execute
  | getJob
  | finishJob
  | sentinel (panicking : Bool)
deriving DecidableEq, Repr

/-- One counter transition. -/
def stepEvent (e : PoolEvent) (s : PoolState) : PoolState :=
  match e with
  | .execute => { s with queuedJobNum := s.queuedJobNum + 1 }
  | .getJob =>
      { s with activeThreadNum := s.activeThreadNum + 1,
               queuedJobNum := s.queuedJobNum - 1 }
  | .finishJob => { s with activeThreadNum := s.activeThreadNum - 1 }
  | .sentinel b => (sentinelDrop b s).1

/-- Run a trace of transitions. -/
def runEvents (es : List PoolEvent) (s : PoolState) : PoolState :=
  es.foldl (fun s e => stepEvent e s) s

/-! ### WasmRunner scale operations (src/runner/wasm_runner.rs) -/

/-- The scale-relevant fields of `WasmRunnerEntry`: the worker pool counters,
`_min_scale`, `_max_scale` and `_invoke_count`. -/
structure WasmRunnerState where
  worker : PoolState
  minScale : Nat
  maxScale : Nat
  invokeCount : Nat
deriving DecidableEq, Repr

/-- `DEFAULT_MIN_SCALE`. -/
def DEFAULT_MIN_SCALE : Nat := 1

/-- `DEFAULT_MAX_SCALE`. -/
def DEFAULT_MAX_SCALE : Nat := 4096

/-- The scale-relevant part of `WasmRunner::new`: `min_scale` and `max_scale`
come from the config with defaults (`env_get_or_warn!` only logs), the pool
is created with `min_scale` threads and `_invoke_count` starts at 0.  No
relation between `min_scale` and `max_scale` is ever checked.  The compiler
and module-loading steps of `new` touch none of these fields and are omitted
here. -/
def wasmRunnerNew (cfgMin cfgMax : Option Nat) : WasmRunnerState :=
  let min_scale := cfgMin.getD DEFAULT_MIN_SCALE
  let max_scale := cfgMax.getD DEFAULT_MAX_SCALE
  { worker := poolNew min_scale
    minScale := min_scale
    maxScale := max_scale
    invokeCount := 0 }

/-- Model of `WasmRunner::get_scale`.  The source computes
`self._inner._max_scale - replicas` on `usize`; when `replicas > max_scale`
this subtraction underflows, which Rust defines as an arithmetic-overflow
error (a panic under overflow checks); the panic is modelled as
`Except.error`. -/
def get_scale (s : WasmRunnerState) : Except String (Nat × Nat × Nat) :=
  let replicas := s.worker.threadNum
  if replicas ≤ s.maxScale then
    Except.ok (replicas, s.maxScale - replicas, s.invokeCount)
  else
    Except.error "attempt to subtract with overflow"

/-- Model of `WasmRunner::set_scale`: the error branches leave the pool
untouched; the success branch calls `ThreadPool::set_thread_num`.  The pair
returns the call result together with the (possibly updated) pool. -/
def set_scale (min_scale max_scale : Nat) (replicas : Nat) (pool : PoolState) :
    Except String Unit × PoolState :=
  if replicas < min_scale then
    (Except.error ("Replicas can not less then `" ++ toString min_scale ++ "`!"), pool)
  else if replicas > max_scale then
    (Except.error ("Replicas can not greater than `" ++ toString max_scale ++ "`!"), pool)
  else
    (Except.ok (), set_thread_num replicas pool)

/-! ### `Stdin` adapter (src/runner/wasm_runner/stdio.rs lines 132-246)

The adapter holds a residual `Bytes` buffer and the not-yet-polled HTTP
body; the body is modelled as the list of chunks its successive
`data()` polls will deliver (the success path; a transport error never
occurs in this model).  Bytes are `Nat` values below 256. -/

/-- State of `Stdin`: `buffer` is `_buffer`, `chunks` are the chunks the
`_http_body` has yet to deliver before end-of-stream. -/
structure StdinState where
  buffer : List Nat
  chunks : List (List Nat)
deriving DecidableEq, Repr

/-- Model of `Stdin::poll_data` (success path): replace the buffer with the
next chunk and return `true`; return `false` at end-of-stream, leaving the
buffer untouched. -/
def poll_data (s : StdinState) : Bool × StdinState :=
  match s.chunks with
  | [] => (false, s)
  | c :: t => (true, { buffer := c, chunks := t })

/-- The `while self.poll_data()? && !self._buffer.is_empty()` loop of
`Stdin::read`: `out` is what has been copied into `buf` so far (`size`
bytes), `staleBuf` is the current value of `_buffer` (only relevant when
the loop exits at end-of-stream, where the source leaves it in place). -/
def readLoop (bufLen : Nat) (out staleBuf : List Nat) :
    List (List Nat) → List Nat × StdinState
  | [] => (out, ⟨staleBuf, []⟩)
  | c :: t =>
    if c = [] then (out, ⟨c, t⟩)
    else
      let remain := bufLen - out.length
      if remain ≤ c.length then (out ++ c.take remain, ⟨c.drop remain, t⟩)
      else readLoop bufLen (out ++ c) [] t

/-- Model of `Stdin::read` into a buffer of length `bufLen`: returns the
bytes copied into the buffer and the successor state.  Note the translation
of the branch at lines 182-185: when the residual buffer is shorter than
`buf` it is copied but NOT cleared, so it stays in `_buffer` when the
following poll hits end-of-stream. -/
def stdinRead (bufLen : Nat) (s : StdinState) : List Nat × StdinState :=
  if s.buffer = [] then readLoop bufLen [] [] s.chunks
  else if bufLen ≤ s.buffer.length then
    (s.buffer.take bufLen, ⟨s.buffer.drop bufLen, s.chunks⟩)
  else readLoop bufLen s.buffer s.buffer s.chunks

/-- The `while self.poll_data()?` loop of `Stdin::read_to_end`: each polled
chunk is appended to `out` and becomes the new `_buffer`; at end-of-stream
the buffer keeps its last value. -/
def readToEndLoop (out buf : List Nat) : List (List Nat) → List Nat × StdinState
  | [] => (out, ⟨buf, []⟩)
  | c :: t => readToEndLoop (out ++ c) c t

/-- Model of `Stdin::read_to_end`: first the residual buffer, then every
remaining chunk, is appended to the target; returns the appended bytes and
the successor state. -/
def stdinReadToEnd (s : StdinState) : List Nat × StdinState :=
  readToEndLoop s.buffer s.buffer s.chunks

/-- `0x80 ≤ b ≤ 0xBF`: a UTF-8 continuation byte. -/
def isUtf8Cont (b : Nat) : Bool :=
  128 ≤ b && b ≤ 191

/-- Allowed second byte after the leading byte `b` of a 3-byte sequence. -/
def utf8Snd3 (b b2 : Nat) : Bool :=
  if b = 224 then 160 ≤ b2 && b2 ≤ 191
  else if b = 237 then 128 ≤ b2 && b2 ≤ 159
  else isUtf8Cont b2

/-- Allowed second byte after the leading byte `b` of a 4-byte sequence. -/
def utf8Snd4 (b b2 : Nat) : Bool :=
  if b = 240 then 144 ≤ b2 && b2 ≤ 191
  else if b = 244 then 128 ≤ b2 && b2 ≤ 143
  else isUtf8Cont b2

/-- Fuel-indexed UTF-8 validity check; the fuel only serves structural
termination and any fuel at least the list length gives the true answer. -/
def validUtf8Fuel : Nat → List Nat → Bool
  | _, [] => true
  | 0, _ :: _ => false
  | fuel + 1, b :: t =>
    if b ≤ 127 then validUtf8Fuel fuel t
    else if b ≤ 193 then false
    else if b ≤ 223 then
      match t with
      | b2 :: t2 => isUtf8Cont b2 && validUtf8Fuel fuel t2
      | [] => false
    else if b ≤ 239 then
      match t with
      | b2 :: b3 :: t3 => utf8Snd3 b b2 && isUtf8Cont b3 && validUtf8Fuel fuel t3
      | _ => false
    else if b ≤ 244 then
      match t with
      | b2 :: b3 :: b4 :: t4 =>
          utf8Snd4 b b2 && isUtf8Cont b3 && isUtf8Cont b4 && validUtf8Fuel fuel t4
      | _ => false
    else false

/-- Model of `std::str::from_utf8(..).is_ok()`: standard UTF-8 validity of a
byte sequence (shortest forms only, no surrogates, max `U+10FFFF`). -/
def validUtf8 (l : List Nat) : Bool :=
  validUtf8Fuel l.length l

/-- Model of `Stdin::read_to_string` appending to `target`: run
`read_to_end` on the hidden byte vector of the target, then fail with the
`InvalidData` message iff the appended range is not valid UTF-8.  Returns
the result, the new target content (the appended bytes stay in the target
even on failure, as in the source), and the successor state. -/
def stdinReadToString (target : List Nat) (s : StdinState) :
    Except String Nat × List Nat × StdinState :=
  let r := stdinReadToEnd s
  (if validUtf8 r.1 then Except.ok r.1.length
   else Except.error "stream did not contain valid UTF-8",
   target ++ r.1, r.2)

/-- hyper's contract for `Body::size_hint().lower()`: whatever value the
body reports is a lower bound on the bytes its remaining polls will
deliver (a chunked body may report 0 with data still pending; an exhausted
body necessarily reports 0). -/
def IsSizeHintLower (hint : List (List Nat) → Nat) : Prop :=
  ∀ chunks : List (List Nat), hint chunks ≤ (chunks.map List.length).sum

/-- The size hint of a body whose remaining length is exactly known, e.g. a
fully buffered `Body::from(bytes)`; one admissible instance of
`IsSizeHintLower`. -/
def exactSizeHint (chunks : List (List Nat)) : Nat :=
  (chunks.map List.length).sum

/-- Model of `Stdin::bytes_available` (line 166-169): it reads the size
hint of the not-yet-polled `_http_body` — whatever lower bound `hint` the
body implementation reports — and never looks at the residual `_buffer`.
It is a pure read of the state (no poll), so it never blocks. -/
def bytes_available (hint : List (List Nat) → Nat) (s : StdinState) : Nat :=
  hint s.chunks

/-! ### `ScaleServiceRequest::from_json` (src/contrib/faas/provider_types.rs
lines 130-191) and the `/scale-updater` arm of `handle`
(src/server/watchdog.rs lines 132-146)

The request body is a byte list (`s.as_bytes()`); the parser walks it by
index, modelled here by structural recursion on the remaining suffix. -/

/-- `u8::is_ascii_digit`. -/
def isAsciiDigit (b : Nat) : Bool :=
  48 ≤ b && b ≤ 57

/-- `u8::is_ascii_whitespace`: space, tab, newline, form feed, carriage
return. -/
def isAsciiWhitespace (b : Nat) : Bool :=
  b = 32 || b = 9 || b = 10 || b = 12 || b = 13

/-- `ScaleServiceRequest::REPLICAS_KEY`, the bytes of `"replicas"` with the
surrounding quotes. -/
def REPLICAS_KEY : List Nat :=
  [34, 114, 101, 112, 108, 105, 99, 97, 115, 34]

/-- `2^64`, the modulus of wrapping `u64` arithmetic. -/
def U64 : Nat := 2 ^ 64

/-- Model of Rust `str::find(pat)`: byte index of the first occurrence. -/
def listFind (pat : List Nat) : List Nat → Option Nat
  | [] => if pat = [] then some 0 else none
  | b :: t =>
    if pat.isPrefixOf (b :: t) then some 0
    else (listFind pat t).map (· + 1)

/-- The first scan loop of `from_json` (lines 155-164): advance to the
first `b':'` (byte 58) and return the suffix after it; `none` models the
`"Cannot find `:`"` error at end of input. -/
def skipToColon : List Nat → Option (List Nat)
  | [] => none
  | b :: t => if b = 58 then some t else skipToColon t

/-- The second scan loop of `from_json` (lines 166-178): skip ASCII
whitespace up to the first digit; any other byte or end of input is an
error. -/
def skipWsToDigit : List Nat → Except String (List Nat)
  | [] => Except.error "Unexpected EOF"
  | b :: t =>
    if isAsciiDigit b then Except.ok (b :: t)
    else if isAsciiWhitespace b then skipWsToDigit t
    else Except.error ("Unexpected character ascii=`" ++ toString b ++ "`")

/-- The digit-accumulation loop of `from_json` (lines 180-184):
`replicas = (replicas << 3) + (replicas << 1) + (byte - b'0')` with
wrapping `u64` arithmetic, stopping at the first non-digit. -/
def parseNumLoop (acc : Nat) : List Nat → Nat
  | [] => acc
  | b :: t =>
    if isAsciiDigit b then
      parseNumLoop ((((acc <<< 3) % U64 + (acc <<< 1) % U64) % U64 + (b - 48)) % U64) t
    else acc

/-- `ScaleServiceRequest`. -/
structure ScaleServiceRequest where
  serviceName : Option String
  replicas : Nat
deriving DecidableEq, Repr

/-- Model of `ScaleServiceRequest::from_json`. -/
def from_json (res_s : Except String (List Nat)) :
    Except String ScaleServiceRequest :=
  match res_s with
  | .error e => .error e
  | .ok s =>
    match listFind REPLICAS_KEY s with
    | none => .error "Cannot find key \"replicas\""
    | some pos =>
      match skipToColon (s.drop (pos + REPLICAS_KEY.length)) with
      | none => .error "Cannot find `:` after key \"replicas\""
      | some t2 =>
        match skipWsToDigit t2 with
        | .error e => .error e
        | .ok t3 => .ok ⟨none, parseNumLoop 0 t3⟩

/-- The exact decimal value of a digit-byte sequence (no wrap). -/
def digitsVal (ds : List Nat) : Nat :=
  ds.foldl (fun a b => 10 * a + (b - 48)) 0

/-- A watchdog HTTP response: status code and body (`Response::default()`
is `200` with an empty body). -/
structure HttpResponse where
  status : Nat
  body : String
deriving DecidableEq, Repr

/-- Model of the `"/scale-updater"` arm of `handle`: parse the buffered
body, call `runner.set_scale(r._replicas as usize)` on success (`500` with
the error text when rejected, otherwise the default `200` response), and on
parse failure answer `400` with the explanatory body. -/
def handleScaleUpdater (bodyRes : Except String (List Nat))
    (min_scale max_scale : Nat) (pool : PoolState) : HttpResponse × PoolState :=
  match from_json bodyRes with
  | .ok r =>
    match set_scale min_scale max_scale r.replicas pool with
    | (.ok _, p2) => ({ status := 200, body := "" }, p2)
    | (.error e, p2) => ({ status := 500, body := e }, p2)
  | .error e =>
    ({ status := 400,
       body := "Cannot parse request. Please pass valid JSON. Error=" ++ e }, pool)

/-! ### `WatchdogConfig::new` and `parse_var`
(src/config/watchdog_config.rs, src/config/watchdog_mode.rs)

The configuration source is the key→value map; parse failures of `FromStr`
are modelled by `Option`. -/

/-- The key→value environment map (`HashMap<String, String>::get`). -/
def Vars : Type := String → Option String

/-- Digit-accumulation core of Rust unsigned `FromStr`: all characters must
be ASCII digits (exact value, overflow checked by the caller). -/
def parseUIntAux (acc : Nat) : List Char → Option Nat
  | [] => some acc
  | c :: t =>
    if c.isDigit then parseUIntAux (10 * acc + (c.toNat - 48)) t
    else none

/-- Rust unsigned `FromStr` with exclusive bound `bound`: optional leading
`+`, at least one digit, value below the bound. -/
def parseUInt (bound : Nat) (s : String) : Option Nat :=
  match s.data with
  | [] => none
  | '+' :: t =>
    match t with
    | [] => none
    | _ =>
      match parseUIntAux 0 t with
      | some v => if v < bound then some v else none
      | none => none
  | l =>
    match parseUIntAux 0 l with
    | some v => if v < bound then some v else none
    | none => none

/-- `u16::from_str`. -/
def parseU16 (s : String) : Option Nat := parseUInt (2 ^ 16) s

/-- `u64::from_str`. -/
def parseU64 (s : String) : Option Nat := parseUInt (2 ^ 64) s

/-- `usize::from_str` (64-bit host). -/
def parseUsize (s : String) : Option Nat := parseUInt (2 ^ 64) s

/-- `i32::from_str`: optional sign, digits, value in `[-2^31, 2^31)`. -/
def parseI32 (s : String) : Option Int :=
  match s.data with
  | [] => none
  | '+' :: t =>
    match t with
    | [] => none
    | _ =>
      match parseUIntAux 0 t with
      | some v => if v < 2 ^ 31 then some (v : Int) else none
      | none => none
  | '-' :: t =>
    match t with
    | [] => none
    | _ =>
      match parseUIntAux 0 t with
      | some v => if v ≤ 2 ^ 31 then some (-(v : Int)) else none
      | none => none
  | l =>
    match parseUIntAux 0 l with
    | some v => if v < 2 ^ 31 then some (v : Int) else none
    | none => none

/-- `bool::from_str`: exactly `"true"` or `"false"`. -/
def parseBool (s : String) : Option Bool :=
  if s = "true" then some true
  else if s = "false" then some false
  else none

/-- `String::from_str` never fails. -/
def parseStr (s : String) : Option String := some s

/-- Model of `parse_var`: look the key up and parse; a missing key or a
parse failure both give `None`. -/
def parse_var {α : Type} (parse : String → Option α) (vars : Vars)
    (key : String) : Option α :=
  (vars key).bind parse

/-- `WatchdogMode`. -/
inductive WatchdogMode where
  | ModeUnknown
  | ModeStreaming
  | ModeAfterBurn
  | ModeSerializing
  | ModeHTTP
  | ModeStatic
  | ModeWasm
deriving DecidableEq, Repr

/-- Model of `WatchdogMode::from(&str)`: linear scan of
`WATCHDOG_MODE_STR`; note that `"unknown"` itself maps to `ModeUnknown`
(index 0), and so does any unmatched string. -/
def WatchdogMode.fromString (s : String) : WatchdogMode :=
  if s = "unknown" then .ModeUnknown
  else if s = "streaming" then .ModeStreaming
  else if s = "afterburn" then .ModeAfterBurn
  else if s = "serializing" then .ModeSerializing
  else if s = "http" then .ModeHTTP
  else if s = "static" then .ModeStatic
  else if s = "wasm" then .ModeWasm
  else .ModeUnknown

/-- The `available_mode` string built by the loop over
`WATCHDOG_MODE_STR[1..]` in `WatchdogConfig::new`. -/
def AVAILABLE_MODE : String :=
  "streaming,afterburn,serializing,http,static,wasm,"

/-- `WatchdogConfig` as constructed by `watchdog_config.rs` (the `wasm`
feature enabled; `Duration` fields in whole seconds). -/
structure WatchdogConfig where
  tcp_port : Nat
  http_read_timeout : Nat
  http_write_timeout : Nat
  exec_timeout : Nat
  health_check_interval : Nat
  function_process : String
  content_type : String
  inject_cgi_headers : Bool
  operational_mode : WatchdogMode
  suppress_lock : Bool
  upstream_url : Option String
  static_path : String
  buffer_http_body : Bool
  metrics_port : Nat
  max_inflight : Int
  prefix_logs : Bool
  log_buffer_size : Int
  min_scale : Option Nat
  max_scale : Option Nat
  wasm_root : Option String
  wasm_c_target_triple : Option String
  wasm_c_cpu_features : Option String
  use_cuda : Option Bool
deriving DecidableEq, Repr

/-- Model of `WatchdogConfig::new`.  Early `return Err` is modelled by
`Except.bind` on the mode and function-process resolutions. -/
def WatchdogConfig.new (vars : Vars) : Except String WatchdogConfig :=
  let tcp_port := (parse_var parseU16 vars "port").getD 8080
  let http_read_timeout := (parse_var parseU64 vars "read_timeout").getD 10
  let http_write_timeout := (parse_var parseU64 vars "write_timeout").getD 10
  if http_write_timeout = 0 then
    Except.error "HTTP write timeout must be over 0s."
  else
    let health_check_interval :=
      match parse_var parseU64 vars "healthcheck_interval" with
      | some t => t
      | none => http_write_timeout
    let exec_timeout := (parse_var parseU64 vars "exec_timeout").getD 10
    Except.bind
      (match vars "mode" with
       | some str =>
         if WatchdogMode.fromString str = .ModeUnknown then
           Except.error ("unknown watchdog mode: " ++ str ++
             " \navailable mode is [" ++ AVAILABLE_MODE ++ "]")
         else Except.ok (WatchdogMode.fromString str)
       | none => Except.ok .ModeWasm)
      fun operational_mode =>
    Except.bind
      (match vars "function_process" with
       | some str => Except.ok str
       | none =>
         match vars "fprocess" with
         | some str => Except.ok str
         | none =>
           if operational_mode = .ModeStatic then Except.ok ""
           else
             Except.error ("Please provide a \"function_process\" or " ++
               "\"fprocess\" environmental variable for your function."))
      fun function_process =>
    let content_type :=
      (parse_var parseStr vars "content_type").getD "application/octet-stream"
    let upstream_url :=
      match parse_var parseStr vars "http_upstream_url" with
      | some u => some u
      | none => parse_var parseStr vars "upstream_url"
    let static_path :=
      (parse_var parseStr vars "static_path").getD "/home/app/public"
    let suppress_lock := (parse_var parseBool vars "suppress_lock").getD false
    let max_inflight := (parse_var parseI32 vars "max_inflight").getD 0
    let buffer_http_body :=
      (parse_var parseBool vars "buffer_http").getD
        ((parse_var parseBool vars "http_buffer_req_body").getD false)
    let prefix_logs := (parse_var parseBool vars "prefix_logs").getD true
    let log_buffer_size := (parse_var parseI32 vars "log_buffer_size").getD 65536
    if operational_mode = .ModeHTTP ∧ upstream_url = none then
      Except.error
        "For \"mode=http\" you must specify a valid URL for \"http_upstream_url\""
    else if operational_mode = .ModeStatic ∧ static_path = "" then
      Except.error "For mode=static you must specify the \"static_path\" to serve"
    else
      Except.ok
        { tcp_port := tcp_port
          http_read_timeout := http_read_timeout
          http_write_timeout := http_write_timeout
          exec_timeout := exec_timeout
          health_check_interval := health_check_interval
          function_process := function_process
          content_type := content_type
          inject_cgi_headers := true
          operational_mode := operational_mode
          suppress_lock := suppress_lock
          upstream_url := upstream_url
          static_path := static_path
          buffer_http_body := buffer_http_body
          metrics_port := 8081
          max_inflight := max_inflight
          prefix_logs := prefix_logs
          log_buffer_size := log_buffer_size
          min_scale := parse_var parseUsize vars "min_scale"
          max_scale := parse_var parseUsize vars "max_scale"
          wasm_root := parse_var parseStr vars "wasm_root"
          wasm_c_target_triple := parse_var parseStr vars "wasm_c_target"
          wasm_c_cpu_features := parse_var parseStr vars "wasm_c_cpu_features"
          use_cuda := parse_var parseBool vars "use_cuda" }

/-- The map with `k` bound to `v` (`HashMap::insert` view of the lookup). -/
def updVar (vars : Vars) (k v : String) : Vars :=
  fun x => if x = k then some v else vars x

/-- The map with `k` absent. -/
def remVar (vars : Vars) (k : String) : Vars :=
  fun x => if x = k then none else vars x

/-! ## Helper lemmas -/

theorem isAsciiWhitespace_ne_colon {b : Nat} (h : isAsciiWhitespace b = true) :
    b ≠ 58 := by
  have hb : (((b = 32 ∨ b = 9) ∨ b = 10) ∨ b = 12) ∨ b = 13 := by
    simpa [isAsciiWhitespace] using h
  omega

theorem isAsciiWhitespace_not_digit {b : Nat} (h : isAsciiWhitespace b = true) :
    isAsciiDigit b = false := by
  have hb : (((b = 32 ∨ b = 9) ∨ b = 10) ∨ b = 12) ∨ b = 13 := by
    simpa [isAsciiWhitespace] using h
  simp only [isAsciiDigit]
  simp only [Bool.and_eq_false_iff, decide_eq_false_iff_not]
  omega

theorem skipToColon_ws (ws r : List Nat)
    (h : ∀ b ∈ ws, isAsciiWhitespace b = true) :
    skipToColon (ws ++ 58 :: r) = some r := by
  induction ws with
  | nil => simp [skipToColon]
  | cons c t ih =>
    have hc : c ≠ 58 := isAsciiWhitespace_ne_colon (h c (List.mem_cons_self c t))
    simp only [List.cons_append, skipToColon, if_neg hc]
    exact ih fun b hb => h b (List.mem_cons_of_mem c hb)

theorem skipWsToDigit_ws (ws r : List Nat) (b : Nat)
    (hws : ∀ x ∈ ws, isAsciiWhitespace x = true)
    (hb : isAsciiDigit b = true) :
    skipWsToDigit (ws ++ b :: r) = Except.ok (b :: r) := by
  induction ws with
  | nil => simp [skipWsToDigit, hb]
  | cons c t ih =>
    have hc : isAsciiWhitespace c = true := hws c (List.mem_cons_self c t)
    have hcd : isAsciiDigit c = false := isAsciiWhitespace_not_digit hc
    simp only [List.cons_append, skipWsToDigit, hcd, hc, if_false, if_true,
      Bool.false_eq_true]
    exact ih fun x hx => hws x (List.mem_cons_of_mem c hx)

theorem parseNumLoop_step (acc b : Nat) (t : List Nat)
    (hb : isAsciiDigit b = true) :
    parseNumLoop acc (b :: t) =
      parseNumLoop ((10 * acc + (b - 48)) % U64) t := by
  have hsh : (((acc <<< 3) % U64 + (acc <<< 1) % U64) % U64 + (b - 48)) % U64 =
      (10 * acc + (b - 48)) % U64 := by
    rw [Nat.shiftLeft_eq, Nat.shiftLeft_eq]
    conv_lhs => rw [← Nat.add_mod, Nat.mod_add_mod]
    ring_nf
  rw [parseNumLoop, if_pos hb, hsh]

theorem foldl_digits_mod (t : List Nat) (a : Nat) :
    t.foldl (fun a b => 10 * a + (b - 48)) (a % U64) % U64 =
      t.foldl (fun a b => 10 * a + (b - 48)) a % U64 := by
  induction t generalizing a with
  | nil =>
    simp only [List.foldl_nil]
    exact Nat.mod_mod_of_dvd a (dvd_refl U64)
  | cons e t ih =>
    simp only [List.foldl_cons]
    have h1 : (10 * (a % U64) + (e - 48)) % U64 = (10 * a + (e - 48)) % U64 := by
      conv_lhs => rw [Nat.add_mod, Nat.mul_mod, Nat.mod_mod_of_dvd a (dvd_refl U64),
        ← Nat.mul_mod, ← Nat.add_mod]
    calc t.foldl (fun a b => 10 * a + (b - 48)) (10 * (a % U64) + (e - 48)) % U64
        = t.foldl (fun a b => 10 * a + (b - 48))
            ((10 * (a % U64) + (e - 48)) % U64) % U64 := (ih _).symm
      _ = t.foldl (fun a b => 10 * a + (b - 48))
            ((10 * a + (e - 48)) % U64) % U64 := by rw [h1]
      _ = t.foldl (fun a b => 10 * a + (b - 48)) (10 * a + (e - 48)) % U64 := ih _

theorem parseNumLoop_digits (ds r : List Nat) (acc : Nat)
    (hds : ∀ b ∈ ds, isAsciiDigit b = true)
    (hr : ∀ b, r.head? = some b → isAsciiDigit b = false)
    (hacc : acc < U64) :
    parseNumLoop acc (ds ++ r) =
      ds.foldl (fun a b => 10 * a + (b - 48)) acc % U64 := by
  induction ds generalizing acc with
  | nil =>
    simp only [List.nil_append, List.foldl_nil, Nat.mod_eq_of_lt hacc]
    cases r with
    | nil => rfl
    | cons b t =>
      have hb : isAsciiDigit b = false := hr b rfl
      rw [parseNumLoop, if_neg]
      simp [hb]
  | cons d t ih =>
    have hd : isAsciiDigit d = true := hds d (List.mem_cons_self d t)
    rw [List.cons_append, parseNumLoop_step acc d (t ++ r) hd]
    rw [ih ((10 * acc + (d - 48)) % U64)
      (fun b hb => hds b (List.mem_cons_of_mem d hb))
      (Nat.mod_lt _ (show 0 < U64 by decide))]
    simp only [List.foldl_cons]
    exact foldl_digits_mod t (10 * acc + (d - 48))

theorem splitSpace_ne_nil (l : List Char) : splitSpace l ≠ [] := by
  cases l with
  | nil => simp [splitSpace]
  | cons c t =>
    simp only [splitSpace]
    split
    · simp
    · split <;> simp

theorem stepEvent_threadNum (e : PoolEvent) (s : PoolState) :
    (stepEvent e s).threadNum = s.threadNum := by
  cases e <;> simp [stepEvent, sentinelDrop]
  case sentinel b => cases b <;> simp

theorem stepEvent_panicked_mono (e : PoolEvent) (s : PoolState) :
    s.panickedThreadNum ≤ (stepEvent e s).panickedThreadNum := by
  cases e <;> simp [stepEvent, sentinelDrop]
  case sentinel b =>
    cases b <;> simp

theorem stepEvent_panicked_incr (s : PoolState) :
    (stepEvent (.sentinel true) s).panickedThreadNum = s.panickedThreadNum + 1 := by
  simp [stepEvent, sentinelDrop]

theorem runEvents_threadNum (es : List PoolEvent) (s : PoolState) :
    (runEvents es s).threadNum = s.threadNum := by
  induction es generalizing s with
  | nil => rfl
  | cons e t ih => simp [runEvents] at ih ⊢; rw [ih, stepEvent_threadNum]

theorem runEvents_panicked_mono (es : List PoolEvent) (s : PoolState) :
    s.panickedThreadNum ≤ (runEvents es s).panickedThreadNum := by
  induction es generalizing s with
  | nil => exact Nat.le_refl _
  | cons e t ih =>
    exact Nat.le_trans (stepEvent_panicked_mono e s) (ih (stepEvent e s))

theorem runEvents_panicked_pos (es : List PoolEvent) (s : PoolState)
    (h : PoolEvent.sentinel true ∈ es) :
    1 ≤ (runEvents es s).panickedThreadNum := by
  induction es generalizing s with
  | nil => cases h
  | cons e t ih =>
    rcases List.mem_cons.1 h with he | ht
    · subst he
      have h1 : 1 ≤ (stepEvent (.sentinel true) s).panickedThreadNum := by
        rw [stepEvent_panicked_incr]; omega
      exact Nat.le_trans h1 (runEvents_panicked_mono t _)
    · exact ih _ ht

theorem readToEndLoop_fst (cs : List (List Nat)) (out buf : List Nat) :
    (readToEndLoop out buf cs).1 = out ++ cs.flatten := by
  induction cs generalizing out buf with
  | nil => simp [readToEndLoop]
  | cons c t ih => simp [readToEndLoop, ih, List.flatten]

theorem stdinReadToEnd_fst (s : StdinState) :
    (stdinReadToEnd s).1 = s.buffer ++ s.chunks.flatten := by
  unfold stdinReadToEnd
  exact readToEndLoop_fst s.chunks s.buffer s.buffer

/-! ## Claim theorems -/

/-- C6: with `lower = body.size_hint().lower()`, the channel capacity
`get_body_chunk_size lower` is 1 when `lower ≤ 1024`, `lower / 1024` when
`1024 < lower ≤ 32768`, and 64 otherwise. -/
theorem body_chunk_channel_sizing (lower : Nat) :
    (lower ≤ 1024 → get_body_chunk_size lower = 1) ∧
    (1024 < lower → lower ≤ 32768 → get_body_chunk_size lower = lower / 1024) ∧
    (32768 < lower → get_body_chunk_size lower = 64) := by
  have h10 : (1 <<< 10 : Nat) = 1024 := by decide
  have h15 : (1 <<< 15 : Nat) = 32768 := by decide
  have hdiv : lower >>> 10 = lower / 1024 := by
    rw [Nat.shiftRight_eq_div_pow]
  refine ⟨fun h => ?_, fun h1 h2 => ?_, fun h => ?_⟩
  · simp only [get_body_chunk_size, h10, h15]
    rw [if_pos h]
  · simp only [get_body_chunk_size, h10, h15]
    rw [if_neg (by omega), if_pos h2, hdiv]
  · simp only [get_body_chunk_size, h10, h15]
    rw [if_neg (by omega), if_neg (by omega)]

theorem body_chunk_channel_sizing_witness :
    ((1030 : Nat) ≤ 1024 → get_body_chunk_size 1030 = 1) ∧
    (1024 < 1030 → (1030 : Nat) ≤ 32768 → get_body_chunk_size 1030 = 1030 / 1024) ∧
    (32768 < 1030 → get_body_chunk_size 1030 = 64) :=
  body_chunk_channel_sizing 1030

/-- C8: `parse_command` never fails: Rust `split(" ")` always yields at
least one token, so the `is_empty` guard can never fire.  On the empty
string it returns `Ok` with a single empty token, and on `" "` it returns
`Ok` with two empty tokens, instead of the error `"function name cannot be
empty!"` the claim requires for an empty first token. -/
theorem parse_command_never_fails :
    parse_command [] = Except.ok [[]] ∧
    parse_command [' '] = Except.ok [[], []] ∧
    ∀ f : List Char, parse_command f ≠ Except.error "function name cannot be empty!" := by
  refine ⟨rfl, rfl, fun f => ?_⟩
  unfold parse_command
  have h := splitSpace_ne_nil f
  simp [List.isEmpty_iff, h]

/-- C5: evaluating `mark_healthy false` on the initial health state: the
flag becomes true, the lock file exists with length 0, and `check_healthy`
holds — but the recorded permission mode is the decimal number 660
(`0o1224`), because the Rust literal `0660` is decimal; it is not the octal
mode `0o660 = 432` the claim states. -/
theorem mark_healthy_decimal_mode :
    (mark_healthy false ⟨false, false, none⟩).acceptingConnections = true ∧
    (mark_healthy false ⟨false, false, none⟩).lockFile = some (0, 660) ∧
    check_healthy (mark_healthy false ⟨false, false, none⟩) = true ∧
    (660 : Nat) ≠ 0o660 := by
  refine ⟨rfl, rfl, rfl, by decide⟩

/-- C2: thread-pool panic resilience.  First part: over any trace of counter
transitions containing a panicking sentinel, once `join` can return
(`has_work = false`) the pool has `active = 0`, `queued = 0`,
`panicked_thread_num ≥ 1`, and the target `thread_num` is unchanged.
Second part: a panicking sentinel decrements `active`, notifies joiners
exactly when the pool became idle, increments `panicked_thread_num`, spawns
one replacement worker, and preserves the target. -/
theorem thread_pool_panic_resilience :
    (∀ (es : List PoolEvent) (s0 : PoolState),
      PoolEvent.sentinel true ∈ es →
      has_work (runEvents es s0) = false →
      (runEvents es s0).activeThreadNum = 0 ∧
      (runEvents es s0).queuedJobNum = 0 ∧
      1 ≤ (runEvents es s0).panickedThreadNum ∧
      (runEvents es s0).threadNum = s0.threadNum) ∧
    (∀ s : PoolState,
      (sentinelDrop true s).1.activeThreadNum = s.activeThreadNum - 1 ∧
      (sentinelDrop true s).1.panickedThreadNum = s.panickedThreadNum + 1 ∧
      (sentinelDrop true s).1.threadNum = s.threadNum ∧
      (sentinelDrop true s).2.2 = true ∧
      ((sentinelDrop true s).2.1 = true ↔
        s.activeThreadNum = 1 ∧ s.queuedJobNum = 0)) := by
  constructor
  · intro es s0 hmem hjoin
    have hw : ¬ ((runEvents es s0).activeThreadNum > 0 ∨
        (runEvents es s0).queuedJobNum > 0) := by
      intro hcon
      rcases hcon with h | h <;> simp [has_work, h] at hjoin
    refine ⟨by omega, by omega, runEvents_panicked_pos es s0 hmem,
      runEvents_threadNum es s0⟩
  · intro s
    refine ⟨rfl, rfl, rfl, rfl, ?_⟩
    simp [sentinelDrop]

theorem thread_pool_panic_resilience_witness :
    has_work (runEvents [.execute, .getJob, .sentinel true] (poolNew 3)) = false ∧
    (runEvents [.execute, .getJob, .sentinel true] (poolNew 3)).activeThreadNum = 0 ∧
    (runEvents [.execute, .getJob, .sentinel true] (poolNew 3)).queuedJobNum = 0 ∧
    1 ≤ (runEvents [.execute, .getJob, .sentinel true] (poolNew 3)).panickedThreadNum ∧
    (runEvents [.execute, .getJob, .sentinel true] (poolNew 3)).threadNum = (poolNew 3).threadNum :=
  ⟨by decide,
    (thread_pool_panic_resilience.1 [.execute, .getJob, .sentinel true] (poolNew 3)
      (by decide) (by decide)).1,
    (thread_pool_panic_resilience.1 [.execute, .getJob, .sentinel true] (poolNew 3)
      (by decide) (by decide)).2.1,
    (thread_pool_panic_resilience.1 [.execute, .getJob, .sentinel true] (poolNew 3)
      (by decide) (by decide)).2.2.1,
    (thread_pool_panic_resilience.1 [.execute, .getJob, .sentinel true] (poolNew 3)
      (by decide) (by decide)).2.2.2⟩

/-- C3 counterexample: the claim quotes the out-of-bounds message as
`"Replicas can not less then 1"`, but `set_scale 0` with `min_scale = 1`
produces the message `"Replicas can not less then `1`!"`. -/
theorem set_scale_message_counterexample :
    (set_scale 1 4096 0 (poolNew 1)).1 =
      Except.error "Replicas can not less then `1`!" ∧
    (set_scale 1 4096 0 (poolNew 1)).1 ≠
      Except.error "Replicas can not less then 1" := by
  refine ⟨rfl, fun hcon => ?_⟩
  have h := Except.error.inj ((rfl :
    (set_scale 1 4096 0 (poolNew 1)).1 =
      Except.error "Replicas can not less then `1`!").symm.trans hcon)
  exact absurd h (by decide)

/-- C3 (amended): `set_scale n` fails with the message
`"Replicas can not less then `min`!"` when `n < min_scale` and
`"Replicas can not greater than `max`!"` when `n > max_scale`, leaving the
pool target unchanged in both cases; otherwise it succeeds and sets the
pool target to `n`. -/
theorem set_scale_spec (mn mx n : Nat) (pool : PoolState) :
    (n < mn →
      set_scale mn mx n pool =
        (Except.error ("Replicas can not less then `" ++ toString mn ++ "`!"), pool)) ∧
    (mn ≤ n → mx < n →
      set_scale mn mx n pool =
        (Except.error ("Replicas can not greater than `" ++ toString mx ++ "`!"), pool)) ∧
    (mn ≤ n → n ≤ mx →
      set_scale mn mx n pool = (Except.ok (), set_thread_num n pool)) := by
  refine ⟨fun h => ?_, fun h1 h2 => ?_, fun h1 h2 => ?_⟩
  · simp [set_scale, h]
  · have hn : ¬ n < mn := by omega
    simp [set_scale, hn, h2]
  · have hn : ¬ n < mn := by omega
    have hn2 : ¬ n > mx := by omega
    simp [set_scale, hn, hn2]

theorem set_scale_spec_witness :
    ((0 : Nat) < 1 →
      set_scale 1 4096 0 (poolNew 1) =
        (Except.error ("Replicas can not less then `" ++ toString 1 ++ "`!"), poolNew 1)) ∧
    ((1 : Nat) ≤ 0 → 4096 < 0 →
      set_scale 1 4096 0 (poolNew 1) =
        (Except.error ("Replicas can not greater than `" ++ toString 4096 ++ "`!"), poolNew 1)) ∧
    ((1 : Nat) ≤ 0 → (0 : Nat) ≤ 4096 →
      set_scale 1 4096 0 (poolNew 1) = (Except.ok (), set_thread_num 0 (poolNew 1))) :=
  set_scale_spec 1 4096 0 (poolNew 1)

/-- C9: `wasmRunnerNew` accepts any `min_scale`/`max_scale` pair without
validation, starting the pool with `min_scale` threads; `get_scale` panics
(underflowing `usize` subtraction) exactly when the pool target exceeds
`max_scale`, and otherwise returns
`(thread_num, max_scale - thread_num, invoke_count)`. -/
theorem get_scale_underflow :
    (∀ a b : Nat,
      (wasmRunnerNew (some a) (some b)).minScale = a ∧
      (wasmRunnerNew (some a) (some b)).maxScale = b ∧
      (wasmRunnerNew (some a) (some b)).worker.threadNum = a) ∧
    (∀ s : WasmRunnerState, s.maxScale < s.worker.threadNum →
      get_scale s = Except.error "attempt to subtract with overflow") ∧
    (∀ s : WasmRunnerState, s.worker.threadNum ≤ s.maxScale →
      get_scale s =
        Except.ok (s.worker.threadNum, s.maxScale - s.worker.threadNum, s.invokeCount)) := by
  refine ⟨fun a b => ⟨rfl, rfl, rfl⟩, fun s h => ?_, fun s h => ?_⟩
  · have hn : ¬ s.worker.threadNum ≤ s.maxScale := by omega
    simp [get_scale, hn]
  · simp [get_scale, h]

theorem get_scale_underflow_witness :
    ((wasmRunnerNew (some 5) (some 2)).minScale = 5 ∧
      (wasmRunnerNew (some 5) (some 2)).maxScale = 2 ∧
      (wasmRunnerNew (some 5) (some 2)).worker.threadNum = 5) ∧
    ((wasmRunnerNew (some 5) (some 2)).maxScale <
        (wasmRunnerNew (some 5) (some 2)).worker.threadNum ∧
      get_scale (wasmRunnerNew (some 5) (some 2)) =
        Except.error "attempt to subtract with overflow") ∧
    ((wasmRunnerNew (some 1) (some 4096)).worker.threadNum ≤
        (wasmRunnerNew (some 1) (some 4096)).maxScale ∧
      get_scale (wasmRunnerNew (some 1) (some 4096)) = Except.ok (1, 4095, 0)) :=
  ⟨get_scale_underflow.1 5 2,
    ⟨by decide, get_scale_underflow.2.1 (wasmRunnerNew (some 5) (some 2)) (by decide)⟩,
    ⟨by decide, get_scale_underflow.2.2 (wasmRunnerNew (some 1) (some 4096)) (by decide)⟩⟩

/-- C1: the round-trip fails.  With the single chunk `[1, 2, 3]` delivered
then end-of-stream, a `read` into a 2-byte buffer followed by a second
`read` into a 2-byte buffer leaves the residual byte `3` in `_buffer`
(lines 182-185 copy the residual without clearing it, and the poll at
end-of-stream leaves it in place), so a final `read_to_end` returns `[3]`
a second time: the concatenation of all bytes returned is `[1, 2, 3, 3]`,
not `[1, 2, 3]`.  The UTF-8 part behaves as claimed on fresh adapters. -/
theorem stdin_round_trip_duplication :
    (stdinRead 2 ⟨[], [[1, 2, 3]]⟩).1 = [1, 2] ∧
    (stdinRead 2 ⟨[], [[1, 2, 3]]⟩).2 = ⟨[3], []⟩ ∧
    (stdinRead 2 ⟨[3], []⟩).1 = [3] ∧
    (stdinRead 2 ⟨[3], []⟩).2 = ⟨[3], []⟩ ∧
    (stdinReadToEnd ⟨[3], []⟩).1 = [3] ∧
    (stdinRead 2 ⟨[], [[1, 2, 3]]⟩).1 ++ (stdinRead 2 ⟨[3], []⟩).1 ++
        (stdinReadToEnd ⟨[3], []⟩).1 = [1, 2, 3, 3] ∧
    [[1], [2, 3]].flatten = [1, 2, 3] ∧
    ([1, 2, 3, 3] : List Nat) ≠ [1, 2, 3] ∧
    (stdinReadToString [] ⟨[], [[104, 105]]⟩).1 = Except.ok 2 ∧
    (stdinReadToString [] ⟨[], [[255]]⟩).1 =
      Except.error "stream did not contain valid UTF-8" := by
  refine ⟨rfl, rfl, rfl, rfl, rfl, rfl, rfl, by decide, rfl, rfl⟩

/-- C7 counterexample: a reachable `Stdin` state (after reading 2 bytes of
the fully buffered body `Body::from([1, 2, 3])`, whose size hint is exact)
has one byte in the residual buffer, yet the body is exhausted so
`bytes_available` reports 0 — it reads the body size hint, not the residual
buffer size.  (Any admissible hint reports 0 on an exhausted body, since 0
is the only lower bound of 0 remaining bytes.) -/
theorem bytes_available_counterexample :
    bytes_available exactSizeHint (stdinRead 2 ⟨[], [[1, 2, 3]]⟩).2 = 0 ∧
    ((stdinRead 2 ⟨[], [[1, 2, 3]]⟩).2).buffer.length = 1 ∧
    bytes_available exactSizeHint (stdinRead 2 ⟨[], [[1, 2, 3]]⟩).2 ≠
      ((stdinRead 2 ⟨[], [[1, 2, 3]]⟩).2).buffer.length := by
  refine ⟨rfl, rfl, by decide⟩

/-- C7 (amended): `bytes_available` reports the lower size-hint bound of
the not-yet-polled body, not the residual buffer: it is unchanged by any
change to the residual buffer, and — for any body honouring hyper's
lower-bound contract — together with the residual buffer length it never
exceeds the number of bytes `read_to_end` would still return.  It is a
pure read of the state and never blocks. -/
theorem bytes_available_spec :
    (∀ (hint : List (List Nat) → Nat) (s t : StdinState),
      s.chunks = t.chunks →
      bytes_available hint s = bytes_available hint t) ∧
    (∀ (hint : List (List Nat) → Nat), IsSizeHintLower hint →
      ∀ s : StdinState,
        bytes_available hint s + s.buffer.length ≤ (stdinReadToEnd s).1.length) := by
  constructor
  · intro hint s t h
    simp [bytes_available, h]
  · intro hint hlower s
    rw [stdinReadToEnd_fst]
    have h := hlower s.chunks
    simp only [bytes_available, List.length_append, List.length_flatten]
    omega

theorem bytes_available_spec_witness :
    bytes_available exactSizeHint ⟨[3], []⟩ =
      bytes_available exactSizeHint ⟨[7], []⟩ ∧
    bytes_available exactSizeHint ⟨[3], [[4, 5]]⟩ +
        (StdinState.mk [3] [[4, 5]]).buffer.length ≤
      (stdinReadToEnd ⟨[3], [[4, 5]]⟩).1.length :=
  ⟨bytes_available_spec.1 exactSizeHint ⟨[3], []⟩ ⟨[7], []⟩ rfl,
    bytes_available_spec.2 exactSizeHint (fun _ => Nat.le_refl _)
      ⟨[3], [[4, 5]]⟩⟩

theorem drop_after_key (pre r : List Nat) :
    (pre ++ REPLICAS_KEY ++ r).drop (pre.length + REPLICAS_KEY.length) = r := by
  rw [show pre.length + REPLICAS_KEY.length = (pre ++ REPLICAS_KEY).length from
    (List.length_append _ _).symm]
  exact List.drop_left _ _

/-- C4: scale-updater request parsing.  (1) Whenever the first occurrence
of `"replicas"` (with quotes) sits right after a prefix `pre`, with any
ASCII whitespace `ws1` before the colon, any ASCII whitespace `ws2` before
the digits `d :: ds`, and an arbitrary remainder `rest` not starting with a
digit, `from_json` returns exactly the u64 value of the digits (other
fields, living in `pre` or `rest`, are ignored).  (2) Whenever `from_json`
fails, the `/scale-updater` arm answers 400 with a body beginning
`"Cannot parse request"` and leaves the pool untouched.  (3) The body
`{}` (bytes `[123, 125]`) is such a failure. -/
theorem scale_updater_parsing :
    (∀ (pre ws1 ws2 ds rest : List Nat) (d : Nat),
      listFind REPLICAS_KEY
          (pre ++ REPLICAS_KEY ++ (ws1 ++ 58 :: (ws2 ++ d :: (ds ++ rest)))) =
        some pre.length →
      (∀ b ∈ ws1, isAsciiWhitespace b = true) →
      (∀ b ∈ ws2, isAsciiWhitespace b = true) →
      isAsciiDigit d = true →
      (∀ b ∈ ds, isAsciiDigit b = true) →
      (∀ b, rest.head? = some b → isAsciiDigit b = false) →
      digitsVal (d :: ds) < U64 →
      from_json (Except.ok
          (pre ++ REPLICAS_KEY ++ (ws1 ++ 58 :: (ws2 ++ d :: (ds ++ rest))))) =
        Except.ok ⟨none, digitsVal (d :: ds)⟩) ∧
    (∀ (bodyRes : Except String (List Nat)) (e : String) (mn mx : Nat)
        (pool : PoolState),
      from_json bodyRes = Except.error e →
      (handleScaleUpdater bodyRes mn mx pool).1.status = 400 ∧
      (∃ suff, (handleScaleUpdater bodyRes mn mx pool).1.body =
        "Cannot parse request" ++ suff) ∧
      (handleScaleUpdater bodyRes mn mx pool).2 = pool) ∧
    (∃ e, from_json (Except.ok [123, 125]) = Except.error e) := by
  refine ⟨?_, ?_, ⟨"Cannot find key \"replicas\"", rfl⟩⟩
  · intro pre ws1 ws2 ds rest d hfind hws1 hws2 hd hds hrest hval
    have hdrop := drop_after_key pre (ws1 ++ 58 :: (ws2 ++ d :: (ds ++ rest)))
    have hcolon := skipToColon_ws ws1 (ws2 ++ d :: (ds ++ rest)) hws1
    have hdig := skipWsToDigit_ws ws2 (ds ++ rest) d hws2 hd
    have hnum : parseNumLoop 0 ((d :: ds) ++ rest) = digitsVal (d :: ds) := by
      rw [parseNumLoop_digits (d :: ds) rest 0
        (by
          intro b hb
          rcases List.mem_cons.1 hb with h | h
          · exact h ▸ hd
          · exact hds b h)
        hrest (by decide)]
      exact Nat.mod_eq_of_lt hval
    simp only [from_json, hfind, hdrop, hcolon]
    rw [show ws2 ++ d :: (ds ++ rest) = ws2 ++ (d :: (ds ++ rest)) from rfl] at hdig
    simp only [hdig]
    rw [show d :: (ds ++ rest) = (d :: ds) ++ rest from rfl, hnum]
  · intro bodyRes e mn mx pool herr
    refine ⟨?_, ⟨". Please pass valid JSON. Error=" ++ e, ?_⟩, ?_⟩
    · simp [handleScaleUpdater, herr]
    · simp only [handleScaleUpdater, herr]
      rw [← String.append_assoc]
      congr 1
    · simp [handleScaleUpdater, herr]

theorem scale_updater_parsing_witness :
    from_json (Except.ok
        ([123] ++ REPLICAS_KEY ++ ([32] ++ 58 :: ([9] ++ 49 :: ([50] ++ [125]))))) =
      Except.ok ⟨none, digitsVal [49, 50]⟩ ∧
    ((handleScaleUpdater (Except.ok [123, 125]) 1 4096 (poolNew 1)).1.status = 400 ∧
      (∃ suff, (handleScaleUpdater (Except.ok [123, 125]) 1 4096 (poolNew 1)).1.body =
        "Cannot parse request" ++ suff) ∧
      (handleScaleUpdater (Except.ok [123, 125]) 1 4096 (poolNew 1)).2 = poolNew 1) :=
  ⟨scale_updater_parsing.1 [123] [32] [9] [50] [125] 49
      (by decide) (by decide) (by decide) (by decide) (by decide)
      (by intro b hb; cases hb; decide) (by decide),
    scale_updater_parsing.2.1 (Except.ok [123, 125]) "Cannot find key \"replicas\""
      1 4096 (poolNew 1) rfl⟩

theorem updVar_self (vars : Vars) (k v : String) : updVar vars k v k = some v := by
  simp [updVar]

theorem parse_var_upd_self {α : Type} (p : String → Option α) (vars : Vars)
    (k v : String) : parse_var p (updVar vars k v) k = p v := by
  simp [parse_var, updVar]

theorem parse_var_rem_self {α : Type} (p : String → Option α) (vars : Vars)
    (k : String) : parse_var p (remVar vars k) k = none := by
  simp [parse_var, remVar]

theorem parse_var_upd_rem_ne {α : Type} (p : String → Option α) (vars : Vars)
    (k v k2 : String) (h : k2 ≠ k) :
    parse_var p (updVar vars k v) k2 = parse_var p (remVar vars k) k2 := by
  simp [parse_var, updVar, remVar, h]

theorem upd_rem_eq_of_ne (vars : Vars) (k v k2 : String) (h : k2 ≠ k) :
    updVar vars k v k2 = remVar vars k k2 := by
  simp [updVar, remVar, h]

theorem watchdogConfig_new_congr (v1 v2 : Vars)
    (hport : parse_var parseU16 v1 "port" = parse_var parseU16 v2 "port")
    (hread : parse_var parseU64 v1 "read_timeout" = parse_var parseU64 v2 "read_timeout")
    (hwrite : parse_var parseU64 v1 "write_timeout" = parse_var parseU64 v2 "write_timeout")
    (hhealth : parse_var parseU64 v1 "healthcheck_interval" =
      parse_var parseU64 v2 "healthcheck_interval")
    (hexec : parse_var parseU64 v1 "exec_timeout" = parse_var parseU64 v2 "exec_timeout")
    (hmode : v1 "mode" = v2 "mode")
    (hfp1 : v1 "function_process" = v2 "function_process")
    (hfp2 : v1 "fprocess" = v2 "fprocess")
    (hct : parse_var parseStr v1 "content_type" = parse_var parseStr v2 "content_type")
    (hup1 : parse_var parseStr v1 "http_upstream_url" =
      parse_var parseStr v2 "http_upstream_url")
    (hup2 : parse_var parseStr v1 "upstream_url" = parse_var parseStr v2 "upstream_url")
    (hsp : parse_var parseStr v1 "static_path" = parse_var parseStr v2 "static_path")
    (hsl : parse_var parseBool v1 "suppress_lock" = parse_var parseBool v2 "suppress_lock")
    (hmi : parse_var parseI32 v1 "max_inflight" = parse_var parseI32 v2 "max_inflight")
    (hbh1 : parse_var parseBool v1 "buffer_http" = parse_var parseBool v2 "buffer_http")
    (hbh2 : parse_var parseBool v1 "http_buffer_req_body" =
      parse_var parseBool v2 "http_buffer_req_body")
    (hpl : parse_var parseBool v1 "prefix_logs" = parse_var parseBool v2 "prefix_logs")
    (hlb : parse_var parseI32 v1 "log_buffer_size" = parse_var parseI32 v2 "log_buffer_size")
    (hmin : parse_var parseUsize v1 "min_scale" = parse_var parseUsize v2 "min_scale")
    (hmax : parse_var parseUsize v1 "max_scale" = parse_var parseUsize v2 "max_scale")
    (hwr : parse_var parseStr v1 "wasm_root" = parse_var parseStr v2 "wasm_root")
    (hwt : parse_var parseStr v1 "wasm_c_target" = parse_var parseStr v2 "wasm_c_target")
    (hwc : parse_var parseStr v1 "wasm_c_cpu_features" =
      parse_var parseStr v2 "wasm_c_cpu_features")
    (hcu : parse_var parseBool v1 "use_cuda" = parse_var parseBool v2 "use_cuda") :
    WatchdogConfig.new v1 = WatchdogConfig.new v2 := by
  unfold WatchdogConfig.new
  rw [hport, hread, hwrite, hhealth, hexec, hmode, hfp1, hfp2, hct, hup1, hup2,
    hsp, hsl, hmi, hbh1, hbh2, hpl, hlb, hmin, hmax, hwr, hwt, hwc, hcu]

/-- C10: for every configuration map, a recognized parsed key whose value
fails to parse at its expected type is treated exactly as if the key were
absent — `WatchdogConfig::new` silently falls back to the default and
reports no error (each conjunct equates `new` on the map with the
unparseable binding and on the map with the key removed) — whereas an
unrecognized `mode` string always fails construction. -/
theorem config_unparseable_defaults :
    (∀ (vars : Vars) (v : String),
      (parseU16 v = none →
        WatchdogConfig.new (updVar vars "port" v) =
          WatchdogConfig.new (remVar vars "port")) ∧
      (parseU64 v = none →
        WatchdogConfig.new (updVar vars "read_timeout" v) =
          WatchdogConfig.new (remVar vars "read_timeout")) ∧
      (parseU64 v = none →
        WatchdogConfig.new (updVar vars "write_timeout" v) =
          WatchdogConfig.new (remVar vars "write_timeout")) ∧
      (parseU64 v = none →
        WatchdogConfig.new (updVar vars "healthcheck_interval" v) =
          WatchdogConfig.new (remVar vars "healthcheck_interval")) ∧
      (parseU64 v = none →
        WatchdogConfig.new (updVar vars "exec_timeout" v) =
          WatchdogConfig.new (remVar vars "exec_timeout")) ∧
      (parseBool v = none →
        WatchdogConfig.new (updVar vars "suppress_lock" v) =
          WatchdogConfig.new (remVar vars "suppress_lock")) ∧
      (parseBool v = none →
        WatchdogConfig.new (updVar vars "buffer_http" v) =
          WatchdogConfig.new (remVar vars "buffer_http")) ∧
      (parseBool v = none →
        WatchdogConfig.new (updVar vars "http_buffer_req_body" v) =
          WatchdogConfig.new (remVar vars "http_buffer_req_body")) ∧
      (parseBool v = none →
        WatchdogConfig.new (updVar vars "prefix_logs" v) =
          WatchdogConfig.new (remVar vars "prefix_logs")) ∧
      (parseBool v = none →
        WatchdogConfig.new (updVar vars "use_cuda" v) =
          WatchdogConfig.new (remVar vars "use_cuda")) ∧
      (parseI32 v = none →
        WatchdogConfig.new (updVar vars "max_inflight" v) =
          WatchdogConfig.new (remVar vars "max_inflight")) ∧
      (parseI32 v = none →
        WatchdogConfig.new (updVar vars "log_buffer_size" v) =
          WatchdogConfig.new (remVar vars "log_buffer_size")) ∧
      (parseUsize v = none →
        WatchdogConfig.new (updVar vars "min_scale" v) =
          WatchdogConfig.new (remVar vars "min_scale")) ∧
      (parseUsize v = none →
        WatchdogConfig.new (updVar vars "max_scale" v) =
          WatchdogConfig.new (remVar vars "max_scale"))) ∧
    (∀ (vars : Vars) (s : String),
      WatchdogMode.fromString s = WatchdogMode.ModeUnknown →
      ∃ e, WatchdogConfig.new (updVar vars "mode" s) = Except.error e) := by
  constructor
  · intro vars v
    refine ⟨?_, ?_, ?_, ?_, ?_, ?_, ?_, ?_, ?_, ?_, ?_, ?_, ?_, ?_⟩
    all_goals
      (intro hp
       apply watchdogConfig_new_congr <;>
         first
         | (rw [parse_var_upd_self, parse_var_rem_self]; exact hp)
         | (exact parse_var_upd_rem_ne _ _ _ _ _ (by decide))
         | (exact upd_rem_eq_of_ne _ _ _ _ (by decide)))
  · intro vars s hmode
    simp only [WatchdogConfig.new]
    by_cases hw :
      (parse_var parseU64 (updVar vars "mode" s) "write_timeout").getD 10 = 0
    · rw [if_pos hw]
      exact ⟨_, rfl⟩
    · rw [if_neg hw, updVar_self vars "mode" s]
      simp only [hmode, Except.bind]
      exact ⟨_, rfl⟩

theorem config_unparseable_defaults_witness :
    (parseU16 "zzz" = none ∧
      WatchdogConfig.new (updVar (fun _ => none) "port" "zzz") =
        WatchdogConfig.new (remVar (fun _ => none) "port")) ∧
    (WatchdogMode.fromString "bogus" = WatchdogMode.ModeUnknown ∧
      ∃ e, WatchdogConfig.new (updVar (fun _ => none) "mode" "bogus") =
        Except.error e) := by
  have hparse : parseU16 "zzz" = none := by decide
  have hmode : WatchdogMode.fromString "bogus" = WatchdogMode.ModeUnknown := by
    decide
  exact ⟨⟨hparse, (config_unparseable_defaults.1 (fun _ => none) "zzz").1 hparse⟩,
    ⟨hmode, config_unparseable_defaults.2 (fun _ => none) "bogus" hmode⟩⟩
